import Mathlib

/-
Verification development for the AI-Logo-Animator repository.

Shallow embedding of the two source files:
  src/services/geminiService.ts  (the Generation Gateway: generateLogo, animateLogo)
  src/App.tsx                    (the Job Orchestrator: handleGenerateLogo,
                                  handleAnimateLogo, handleSelectApiKey,
                                  checkApiKey, handleFileChange)

Remote endpoints, the browser file reader and the host credential picker are
modelled as explicit environment/oracle values; every externally visible step
of a run (remote calls, timer starts/stops, suspensions) is recorded in an
event trace so that ordering and counting properties can be stated.

String helpers from the JavaScript runtime (trim, startsWith, includes) are
modelled over the character list of the string, which is extensionally the
same operation and keeps everything kernel-evaluable.
-/

/- ===================== JS string primitives ===================== -/

/-- Model of JavaScript String.prototype.includes: substring containment. -/
def includesSubstr (s pat : String) : Bool :=
  decide (pat.toList <:+: s.toList)

/-- Model of JavaScript String.prototype.startsWith. -/
def strStartsWith (s pre : String) : Bool :=
  decide (pre.toList <+: s.toList)

/-- Model of JavaScript String.prototype.trim: drop leading and trailing
whitespace. -/
def strTrim (s : String) : String :=
  String.mk (((s.data.dropWhile Char.isWhitespace).reverse.dropWhile Char.isWhitespace).reverse)

/- ===================== types.ts ===================== -/

/-- AspectRatio from types.ts: the two values 16:9 and 9:16.  (Named Aspect
here; the two constructors are the landscape and portrait literals.) -/
inductive Aspect
  | landscape169
  | portrait916
deriving DecidableEq, Repr

/-- ImageData from types.ts: base64 payload plus mime type. -/
structure ImageData where
  base64 : String
  mimeType : String
deriving DecidableEq, Repr

/- ===================== geminiService.ts : getApiKey ===================== -/

/-- Message thrown by getApiKey (geminiService.ts line 8). -/
def apiKeyMissingMsg : String := "API_KEY environment variable not set."

/-- getApiKey (geminiService.ts lines 5-11): reads process.env.API_KEY and
throws when it is unset.  A JavaScript falsy check also rejects the empty
string, so both absence and emptiness fail. -/
def getApiKey (envKey : Option String) : Except String String :=
  match envKey with
  | none => Except.error apiKeyMissingMsg
  | some k => if k = "" then Except.error apiKeyMissingMsg else Except.ok k

/- ===================== gateway events ===================== -/

/-- Externally visible steps of a Generation Gateway run: the remote
generateImages call, the generateVideos submit, each 5000 ms suspension,
each getVideosOperation status query, and the HTTP fetch of the result. -/
inductive GEvent
  | remoteGenImages (key : String) (promptSent : String)
  | submit (key : String)
  | sleep (ms : Nat)
  | query
  | fetch (url : String)
deriving DecidableEq, Repr

/-- Recognizer for status-query events. -/
def isQueryEv : GEvent → Bool
  | GEvent.query => true
  | _ => false

/-- Recognizer for submit events. -/
def isSubmitEv : GEvent → Bool
  | GEvent.submit _ => true
  | _ => false

/-- Recognizer for remote image-generation call events. -/
def isRemoteGenEv : GEvent → Bool
  | GEvent.remoteGenImages _ _ => true
  | _ => false

/-- Number of status queries in a trace. -/
def countQueries (tr : List GEvent) : Nat := tr.countP isQueryEv

/-- Number of submit calls in a trace. -/
def countSubmits (tr : List GEvent) : Nat := tr.countP isSubmitEv

/-- Number of remote image-generation calls in a trace. -/
def countRemoteGen (tr : List GEvent) : Nat := tr.countP isRemoteGenEv

/- ===================== geminiService.ts : generateLogo ===================== -/

/-- SDK response nesting at geminiService.ts line 26:
generatedImages[0].image.imageBytes. -/
structure ImageObj where
  imageBytes : String
deriving DecidableEq, Repr

/-- One element of the generatedImages array. -/
structure GeneratedImage where
  image : ImageObj
deriving DecidableEq, Repr

/-- Response of the remote generateImages call; the generatedImages field may
be absent (malformed response). -/
structure GenImagesResponse where
  generatedImages : Option (List GeneratedImage)
deriving DecidableEq, Repr

/-- Environment of one generateLogo call: the API_KEY variable at call time
and the outcome of the single remote generateImages round trip. -/
structure GenEnv where
  envKey : Option String
  remote : Except String GenImagesResponse
deriving Repr

/-- Message thrown at geminiService.ts line 29. -/
def genFailMsg : String := "Image generation failed or returned no images."

/-- Fixed prompt template of generateLogo (geminiService.ts line 17). -/
def logoPromptTemplate (p : String) : String :=
  "A professional, modern, minimalist logo for a company. The logo should be based on the following description: \"" ++ p ++ "\". The logo should be on a clean, solid background."

/-- generateLogo (geminiService.ts lines 13-30).  Builds the client with a
freshly read key, performs one generateImages call, returns the first image's
bytes when the list is present and non-empty, otherwise throws.  Result is
the event trace paired with the settled promise. -/
def generateLogo (env : GenEnv) (p : String) : List GEvent × Except String String :=
  match getApiKey env.envKey with
  | Except.error m => ([], Except.error m)
  | Except.ok key =>
    let ev := GEvent.remoteGenImages key (logoPromptTemplate p)
    match env.remote with
    | Except.error m => ([ev], Except.error m)
    | Except.ok resp =>
      match resp.generatedImages with
      | none => ([ev], Except.error genFailMsg)
      | some [] => ([ev], Except.error genFailMsg)
      | some (i :: _) => ([ev], Except.ok i.image.imageBytes)

/- ===================== geminiService.ts : animateLogo ===================== -/

/-- Innermost video object: may carry a download uri. -/
structure VideoObj where
  uri : Option String
deriving DecidableEq, Repr

/-- One element of the generatedVideos array; the video field is optional. -/
structure GeneratedVideo where
  video : Option VideoObj
deriving DecidableEq, Repr

/-- Operation response payload; the generatedVideos array is optional. -/
structure VideosResponse where
  generatedVideos : Option (List GeneratedVideo)
deriving DecidableEq, Repr

/-- Job Handle: the operation object returned by generateVideos and by each
getVideosOperation refresh; carries the completion flag and, optionally, the
result payload. -/
structure JobOp where
  done : Bool
  response : Option VideosResponse
deriving DecidableEq, Repr

/-- The optional chain operation.response?.generatedVideos?.[0]?.video?.uri
(geminiService.ts line 59). -/
def downloadLinkOf (op : JobOp) : Option String :=
  match op.response with
  | none => none
  | some r =>
    match r.generatedVideos with
    | none => none
    | some [] => none
    | some (gv :: _) =>
      match gv.video with
      | none => none
      | some v => v.uri

/-- Result of the HTTP fetch of the video bytes. -/
structure FetchResp where
  ok : Bool
  statusText : String
  bytes : String
deriving DecidableEq, Repr

/-- Video Resource Handle: the object URL produced from the downloaded blob,
modelled as a wrapper around the downloaded bytes. -/
structure VideoHandle where
  bytes : String
deriving DecidableEq, Repr

/-- Message thrown at geminiService.ts line 61. -/
def missingResultMsg : String := "Video generation did not return a valid download link."

/-- EXTRACT and DOWNLOAD phases of animateLogo (geminiService.ts lines
59-69): read the nested uri from the completed operation, throw when absent;
otherwise re-read the key, fetch the uri with the key appended as a query
parameter, throw on a non-OK status, else wrap the bytes. -/
def extractDownload (dlKey : Option String) (fetchFn : String → FetchResp)
    (op : JobOp) : List GEvent × Except String VideoHandle :=
  match downloadLinkOf op with
  | none => ([], Except.error missingResultMsg)
  | some link =>
    match getApiKey dlKey with
    | Except.error m => ([], Except.error m)
    | Except.ok key =>
      let url := link ++ "&key=" ++ key
      let resp := fetchFn url
      if resp.ok then ([GEvent.fetch url], Except.ok { bytes := resp.bytes })
      else ([GEvent.fetch url], Except.error ("Failed to fetch video: " ++ resp.statusText))

/-- POLL phase of animateLogo (geminiService.ts lines 54-57): while the
operation is not done, sleep 5000 ms then refresh it via getVideosOperation.
qs is the finite list of successive oracle answers; none means the oracle was
exhausted before the job completed (the source loop would still be running). -/
def pollEvents (op : JobOp) (qs : List JobOp) : Option (JobOp × List GEvent) :=
  match qs with
  | [] => if op.done then some (op, []) else none
  | q :: rest =>
    if op.done then some (op, [])
    else
      match pollEvents q rest with
      | none => none
      | some (fin, evs) => some (fin, GEvent.sleep 5000 :: GEvent.query :: evs)

/-- The successive values of the completion flag read by the loop guard
`while (!operation.done)`: first the submit-returned handle, then each
refreshed handle, ending with the first true (or with a trailing false when
the oracle is exhausted while the flag is still false). -/
def observedFlags (op : JobOp) (qs : List JobOp) : List Bool :=
  match qs with
  | [] => if op.done then [true] else [false]
  | q :: rest => if op.done then [true] else false :: observedFlags q rest

/-- Environment of one animateLogo call: the API_KEY value at the two points
where getApiKey is run (call start, download-URL construction), the outcome
of the generateVideos submit, the successive getVideosOperation answers, and
the HTTP fetch behaviour. -/
structure AnimateEnv where
  keyAtStart : Option String
  submitResult : Except String JobOp
  queryOps : List JobOp
  keyAtDownload : Option String
  fetchFn : String → FetchResp

/-- animateLogo (geminiService.ts lines 32-70): fresh key read, one submit,
the poll loop, then extract and download.  none models the case where the
poll loop never observes a completed handle within the supplied oracle. -/
def animateLogo (env : AnimateEnv) : Option (List GEvent × Except String VideoHandle) :=
  match getApiKey env.keyAtStart with
  | Except.error m => some ([], Except.error m)
  | Except.ok key =>
    match env.submitResult with
    | Except.error m => some ([GEvent.submit key], Except.error m)
    | Except.ok op0 =>
      match pollEvents op0 env.queryOps with
      | none => none
      | some (fin, pevs) =>
        let dl := extractDownload env.keyAtDownload env.fetchFn fin
        some (GEvent.submit key :: (pevs ++ dl.1), dl.2)

/- ===================== App.tsx : state and events ===================== -/

/-- React state of the App component (App.tsx lines 9-18).  The aspect field
embeds the aspectRatio state variable. -/
structure AppState where
  prompt : String
  imageData : Option ImageData
  videoUrl : Option String
  aspect : Aspect
  isGeneratingImage : Bool
  isGeneratingVideo : Bool
  error : Option String
  apiKeySelected : Bool
  videoLoadingMessage : String
deriving DecidableEq, Repr

/-- Externally visible steps of a handler run.  Events that issue a request
carry a snapshot of the component state at the moment the request is issued,
so before/after properties can be stated about that instant. -/
inductive AppEvent
  | hostQuery
  | credentialPrompt
  | startTimer (ms : Nat)
  | remoteGenerate (atState : AppState)
  | remoteAnimate (atState : AppState)
  | fileRead (atState : AppState)
  | stopTimer
deriving DecidableEq, Repr

/- ===================== App.tsx : messages ===================== -/

/-- Validation message of handleGenerateLogo (App.tsx line 41). -/
def emptyPromptMsg : String := "Please enter a description for your logo."

/-- Validation message of handleAnimateLogo (App.tsx line 61). -/
def noImageMsg : String := "Please generate or upload a logo first."

/-- Validation message of handleFileChange (App.tsx line 111). -/
def badFileMsg : String := "Please upload a valid image file."

/-- Recoverable credential error message (App.tsx line 95). -/
def apiKeyErrorMsg : String := "API Key error. Please re-select your API Key and try again."

/-- Credential-failure signature matched by substring (App.tsx line 94). -/
def entityNotFoundSig : String := "Requested entity was not found"

/-- Error-text stem of the file-read failure branch (App.tsx line 120). -/
def readFailStem : String := "Failed to read file: "

/-- The fixed rotation list of progress messages (App.tsx lines 75-81). -/
def animMessages : List String :=
  ["Warming up the animation engine...",
   "Choreographing pixel movements...",
   "Rendering cinematic magic...",
   "This can take a few minutes, please wait...",
   "Almost there, adding the final touches..."]

/-- Message displayed after k interval ticks: messages[0] is shown before the
first tick and each tick advances the index modulo the list length (App.tsx
lines 82-87). -/
def messageAfterTicks (k : Nat) : String :=
  animMessages.getD (k % animMessages.length) ""

/- ===================== App.tsx : handlers ===================== -/

/-- handleGenerateLogo (App.tsx lines 39-57): validate the prompt, clear the
error, raise the busy flag, optimistically clear both the video url and the
image, call generateLogo, then store the artifact or the prefixed error, and
drop the busy flag in the finally block.  genRes is the settled outcome of
the generateLogo promise. -/
def handleGenerateLogo (s : AppState) (genRes : Except String String) :
    AppState × List AppEvent :=
  if strTrim s.prompt = "" then
    ({ s with error := some emptyPromptMsg }, [])
  else
    let s1 : AppState :=
      { s with error := none, isGeneratingImage := true,
               videoUrl := none, imageData := none }
    match genRes with
    | Except.ok b64 =>
      ({ s1 with imageData := some { base64 := b64, mimeType := "image/png" },
                 isGeneratingImage := false },
       [AppEvent.remoteGenerate s1])
    | Except.error m =>
      ({ s1 with error := some ("Image generation failed: " ++ m),
                 isGeneratingImage := false },
       [AppEvent.remoteGenerate s1])

/-- checkApiKey (App.tsx lines 20-25): when the host interface is available,
query it and store the answer in apiKeySelected; otherwise do nothing. -/
def checkApiKey (host : Bool) (hostHasKey : Bool) (s : AppState) :
    AppState × List AppEvent :=
  if host then ({ s with apiKeySelected := hostHasKey }, [AppEvent.hostQuery])
  else (s, [])

/-- handleSelectApiKey (App.tsx lines 31-37): when the host interface is
available, open the interactive picker and, on its return, optimistically set
apiKeySelected to true without re-querying; otherwise do nothing. -/
def handleSelectApiKey (host : Bool) (s : AppState) : AppState × List AppEvent :=
  if host then ({ s with apiKeySelected := true }, [AppEvent.credentialPrompt])
  else (s, [])

/-- The catch branch of handleAnimateLogo (App.tsx lines 93-99): a failure
message containing the entity-not-found signature sets the recoverable
credential error and resets apiKeySelected; any other message sets the
generic prefixed error and touches nothing else. -/
def animateCatch (m : String) (s : AppState) : AppState :=
  if includesSubstr m entityNotFoundSig then
    { s with error := some apiKeyErrorMsg, apiKeySelected := false }
  else
    { s with error := some ("Video animation failed: " ++ m) }

/-- External collaborators of one handleAnimateLogo run: host credential
interface availability, its hasSelectedApiKey answer, and the settled outcome
of the animateLogo promise (object url or rejection message). -/
structure AnimateHandlerEnv where
  host : Bool
  hostHasKey : Bool
  animateResult : Except String String

/-- handleAnimateLogo (App.tsx lines 59-105): validate that an image exists,
refresh the credential flag via checkApiKey, then — reading the apiKeySelected
value captured by the handler closure at invocation time, per JavaScript/React
closure semantics of `if (!apiKeySelected)` on line 67 — open the picker when
that captured value is false; clear error and video url, raise the busy flag,
show the first progress message, start the 4000 ms rotation timer, call
animateLogo, store the url or run the catch branch, and in the finally block
stop the timer, drop the busy flag and clear the progress message. -/
def handleAnimateLogo (s : AppState) (env : AnimateHandlerEnv) :
    AppState × List AppEvent :=
  match s.imageData with
  | none => ({ s with error := some noImageMsg }, [])
  | some _ =>
    let p1 := checkApiKey env.host env.hostHasKey s
    let p2 := if s.apiKeySelected = false then handleSelectApiKey env.host p1.1
              else (p1.1, [])
    let s3 : AppState :=
      { p2.1 with error := none, isGeneratingVideo := true, videoUrl := none,
                  videoLoadingMessage := animMessages.getD 0 "" }
    let s4 : AppState :=
      match env.animateResult with
      | Except.ok url => { s3 with videoUrl := some url }
      | Except.error m => animateCatch m s3
    ({ s4 with isGeneratingVideo := false, videoLoadingMessage := "" },
     p1.2 ++ p2.2 ++
       [AppEvent.startTimer 4000, AppEvent.remoteAnimate s3, AppEvent.stopTimer])

/-- An uploaded file as seen by handleFileChange: its mime type. -/
structure FileUpload where
  ftype : String
deriving DecidableEq, Repr

/-- handleFileChange (App.tsx lines 107-124): ignore an empty selection,
reject a non-image mime type with a validation error, otherwise clear the
error and the video url, read the file (readRes is the settled outcome of
fileToBase64), and either store the new artifact or, on a read failure, set
the read error and clear the artifact. -/
def handleFileChange (s : AppState) (file : Option FileUpload)
    (readRes : Except String String) : AppState × List AppEvent :=
  match file with
  | none => (s, [])
  | some f =>
    if strStartsWith f.ftype "image/" = false then
      ({ s with error := some badFileMsg }, [])
    else
      let s1 : AppState := { s with error := none, videoUrl := none }
      match readRes with
      | Except.ok b64 =>
        ({ s1 with imageData := some { base64 := b64, mimeType := f.ftype } },
         [AppEvent.fileRead s1])
      | Except.error m =>
        ({ s1 with error := some (readFailStem ++ m), imageData := none },
         [AppEvent.fileRead s1])

/-- Cleanup actions registered to run at App component teardown.  The only
effect hook of the component (App.tsx lines 27-29) runs checkApiKey on mount
and returns no cleanup function, so this list is empty; in particular no
teardown-time cancellation of the rotation timer is registered anywhere. -/
def appUnmountCleanup : List AppEvent := []

/-- State snapshot at the moment handleAnimateLogo issues the animate call:
the credential flag holds sel (the net result of the credential phase), the
error and video url are cleared, the busy flag is up and the first progress
message is displayed. -/
def animateSnap (s : AppState) (sel : Bool) : AppState :=
  { s with apiKeySelected := sel, error := none, isGeneratingVideo := true,
           videoUrl := none, videoLoadingMessage := animMessages.getD 0 "" }

/- ===================== concrete example inputs ===================== -/

/-- A concrete Image Artifact used in concrete runs. -/
def exImg : ImageData := { base64 := "abc", mimeType := "image/png" }

/-- A concrete component state holding an image and a stale video url, with
no credential selected. -/
def exStateNoSel : AppState :=
  { prompt := "a phoenix logo", imageData := some exImg,
    videoUrl := some "blob-old", aspect := Aspect.landscape169,
    isGeneratingImage := false, isGeneratingVideo := false, error := none,
    apiKeySelected := false, videoLoadingMessage := "" }

/-- The same component state with the credential flag already set. -/
def exStateSel : AppState := { exStateNoSel with apiKeySelected := true }

/-- A component state with a blank prompt and no image. -/
def exStateBlank : AppState :=
  { exStateNoSel with prompt := "   ", imageData := none, videoUrl := none }

/-- A generated video carrying a result uri. -/
def exGenVideo : GeneratedVideo := { video := some { uri := some "http://v/x?a=1" } }

/-- A completed operation carrying a result uri. -/
def exDoneOp : JobOp :=
  { done := true, response := some { generatedVideos := some [exGenVideo] } }

/-- A pending operation. -/
def exPendingOp : JobOp := { done := false, response := none }

/-- A fetch oracle that always succeeds with fixed bytes. -/
def exFetchOk : String → FetchResp :=
  fun _ => { ok := true, statusText := "OK", bytes := "VIDBYTES" }

/-- Gateway environment whose submit completes immediately: the loop guard
observes true at once and no status query is ever issued. -/
def c1CexEnv : AnimateEnv :=
  { keyAtStart := some "k1", submitResult := Except.ok { done := true, response := none },
    queryOps := [], keyAtDownload := some "k1", fetchFn := exFetchOk }

/-- Gateway environment whose submit handle is pending and whose single
status query returns the completed handle. -/
def c1WitEnv : AnimateEnv :=
  { keyAtStart := some "k1", submitResult := Except.ok exPendingOp,
    queryOps := [exDoneOp], keyAtDownload := some "k1", fetchFn := exFetchOk }

/-- Image-generation environment returning one image. -/
def c3WitEnv : GenEnv :=
  { envKey := some "k2",
    remote := Except.ok { generatedImages := some [{ image := { imageBytes := "IMG" } }] } }

/-- Gateway environment for the credential-freshness run: the key read at
download time differs from the key read at call start. -/
def c10WitEnv : AnimateEnv :=
  { keyAtStart := some "kOld", submitResult := Except.ok exDoneOp,
    queryOps := [], keyAtDownload := some "kNew", fetchFn := exFetchOk }

/- ===================== helper lemmas ===================== -/

theorem pollEvents_done (op : JobOp) (qs : List JobOp) (hd : op.done = true) :
    pollEvents op qs = some (op, []) := by
  cases qs <;> simp [pollEvents, hd]

theorem observedFlags_done (op : JobOp) (qs : List JobOp) (hd : op.done = true) :
    observedFlags op qs = [true] := by
  cases qs <;> simp [observedFlags, hd]

theorem pollEvents_of_observedFlags :
    ∀ (qs : List JobOp) (op : JobOp) (N : Nat),
      observedFlags op qs = List.replicate N false ++ [true] →
      ∃ fin, pollEvents op qs =
          some (fin, (List.replicate N [GEvent.sleep 5000, GEvent.query]).flatten) ∧
        fin.done = true := by
  intro qs
  induction qs with
  | nil =>
    intro op N h
    by_cases hd : op.done
    · have hlen := congrArg List.length h
      simp [observedFlags, hd] at hlen
      have hN : N = 0 := by omega
      subst hN
      exact ⟨op, by simp [pollEvents, hd], hd⟩
    · exfalso
      simp only [observedFlags, if_neg hd] at h
      have hlen := congrArg List.length h
      simp at hlen
      have hN : N = 0 := by omega
      subst hN
      simp at h
  | cons q rest ih =>
    intro op N h
    by_cases hd : op.done
    · have hlen := congrArg List.length h
      simp [observedFlags, hd] at hlen
      have hN : N = 0 := by omega
      subst hN
      exact ⟨op, by simp [pollEvents, hd], hd⟩
    · simp only [observedFlags, if_neg hd] at h
      cases N with
      | zero => simp at h
      | succ M =>
        rw [List.replicate_succ] at h
        simp only [List.cons_append, List.cons.injEq] at h
        obtain ⟨fin, hpe, hdone⟩ := ih q M h.2
        refine ⟨fin, ?_, hdone⟩
        simp [pollEvents, hd, hpe, List.replicate_succ]

theorem countQueries_flatten_replicate (N : Nat) :
    countQueries (List.replicate N [GEvent.sleep 5000, GEvent.query]).flatten = N := by
  simp [countQueries, List.countP_flatten, List.map_replicate, List.sum_replicate]
  simp [List.countP_cons, isQueryEv]

theorem countSubmits_flatten_replicate (N : Nat) :
    countSubmits (List.replicate N [GEvent.sleep 5000, GEvent.query]).flatten = 0 := by
  simp [countSubmits, List.countP_flatten, List.map_replicate, List.sum_replicate]
  simp [List.countP_cons, isSubmitEv]

theorem extractDownload_trace_shape (a : Option String) (f : String → FetchResp)
    (op : JobOp) :
    (extractDownload a f op).1 = [] ∨
      ∃ url, (extractDownload a f op).1 = [GEvent.fetch url] := by
  rcases h : downloadLinkOf op with _ | link
  · left
    simp [extractDownload, h]
  · rcases hk : getApiKey a with m | key
    · left
      simp [extractDownload, h, hk]
    · by_cases ho : (f (link ++ "&key=" ++ key)).ok
      · right
        exact ⟨link ++ "&key=" ++ key, by simp [extractDownload, h, hk, ho]⟩
      · right
        exact ⟨link ++ "&key=" ++ key, by simp [extractDownload, h, hk, ho]⟩

/- ===================== claim theorems ===================== -/

/-- C7: each validation failure — blank (or whitespace-only) description on
an image request, no Image Artifact on a video request, or a non-image file
upload — only sets the inline validation error: the handler performs no
external step (empty trace, so no remote endpoint is contacted) and every
other state field, in particular the Image Artifact, the Video Resource
Handle and both busy flags, is left unchanged. -/
theorem c7_validation_frame (s1 s2 s3 : AppState) (genRes : Except String String)
    (env : AnimateHandlerEnv) (f : FileUpload) (readRes : Except String String)
    (h1 : strTrim s1.prompt = "") (h2 : s2.imageData = none)
    (h3 : strStartsWith f.ftype "image/" = false) :
    handleGenerateLogo s1 genRes = ({ s1 with error := some emptyPromptMsg }, []) ∧
    handleAnimateLogo s2 env = ({ s2 with error := some noImageMsg }, []) ∧
    handleFileChange s3 (some f) readRes = ({ s3 with error := some badFileMsg }, []) := by
  refine ⟨?_, ?_, ?_⟩
  · simp [handleGenerateLogo, h1]
  · simp [handleAnimateLogo, h2]
  · simp [handleFileChange, h3]

theorem c7_witness :
    strTrim exStateBlank.prompt = "" ∧
    handleGenerateLogo exStateBlank (Except.ok "b") =
      ({ exStateBlank with error := some emptyPromptMsg }, []) ∧
    handleAnimateLogo exStateBlank
        { host := true, hostHasKey := true, animateResult := Except.ok "u" } =
      ({ exStateBlank with error := some noImageMsg }, []) ∧
    handleFileChange exStateSel (some { ftype := "text/plain" }) (Except.ok "b") =
      ({ exStateSel with error := some badFileMsg }, []) := by
  have h := c7_validation_frame exStateBlank exStateBlank exStateSel (Except.ok "b")
    { host := true, hostHasKey := true, animateResult := Except.ok "u" }
    { ftype := "text/plain" } (Except.ok "b") (by decide) (by decide) (by decide)
  exact ⟨by decide, h.1, h.2.1, h.2.2⟩

/-- C9: when the uploaded file passes the image-type check but the local read
fails, the handler clears the Image Artifact (sets it to none) rather than
leaving it unchanged, and surfaces the read-failure message; by contrast the
non-image validation path leaves the artifact untouched. -/
theorem c9_read_failure_clears (s : AppState) (f : FileUpload) (m : String)
    (hf : strStartsWith f.ftype "image/" = true) :
    (handleFileChange s (some f) (Except.error m)).1.imageData = none ∧
    (handleFileChange s (some f) (Except.error m)).1.error = some (readFailStem ++ m) ∧
    (∀ g : FileUpload, strStartsWith g.ftype "image/" = false →
      (handleFileChange s (some g) (Except.error m)).1.imageData = s.imageData) := by
  refine ⟨?_, ?_, ?_⟩
  · simp [handleFileChange, hf]
  · simp [handleFileChange, hf]
  · intro g hg
    simp [handleFileChange, hg]

theorem c9_witness :
    strStartsWith "image/jpeg" "image/" = true ∧
    (handleFileChange exStateSel (some { ftype := "image/jpeg" })
      (Except.error "EOF")).1.imageData = none := by
  have h := c9_read_failure_clears exStateSel { ftype := "image/jpeg" } "EOF" (by decide)
  exact ⟨by decide, h.1⟩

/-- C2: in the failure transition of the animate workflow, a message
containing the exact entity-not-found signature resets the credential flag to
false and surfaces the specific recoverable-credential message, while any
other message leaves the credential flag exactly as it was and surfaces the
generic prefixed message; at the whole-handler level a matching failure
likewise ends with the credential flag false and the specific message, and a
non-matching failure ends with the generic message. -/
theorem c2_credential_failure (m : String) (s s0 : AppState) (img : ImageData)
    (env : AnimateHandlerEnv)
    (himg : s0.imageData = some img) (hres : env.animateResult = Except.error m) :
    (includesSubstr m entityNotFoundSig = true →
      (animateCatch m s).apiKeySelected = false ∧
      (animateCatch m s).error = some apiKeyErrorMsg ∧
      (handleAnimateLogo s0 env).1.apiKeySelected = false ∧
      (handleAnimateLogo s0 env).1.error = some apiKeyErrorMsg) ∧
    (includesSubstr m entityNotFoundSig = false →
      (animateCatch m s).apiKeySelected = s.apiKeySelected ∧
      (animateCatch m s).error = some ("Video animation failed: " ++ m) ∧
      (handleAnimateLogo s0 env).1.error = some ("Video animation failed: " ++ m)) := by
  constructor
  · intro hin
    refine ⟨by simp [animateCatch, hin], by simp [animateCatch, hin], ?_, ?_⟩
    · simp [handleAnimateLogo, himg, hres, animateCatch, hin]
    · simp [handleAnimateLogo, himg, hres, animateCatch, hin]
  · intro hin
    refine ⟨by simp [animateCatch, hin], by simp [animateCatch, hin], ?_⟩
    simp [handleAnimateLogo, himg, hres, animateCatch, hin]

theorem c2_witness :
    includesSubstr "xx Requested entity was not found yy" entityNotFoundSig = true ∧
    (animateCatch "xx Requested entity was not found yy" exStateSel).apiKeySelected = false ∧
    includesSubstr "boom" entityNotFoundSig = false ∧
    (animateCatch "boom" exStateSel).apiKeySelected = exStateSel.apiKeySelected ∧
    (handleAnimateLogo exStateSel
      { host := true, hostHasKey := true,
        animateResult := Except.error "xx Requested entity was not found yy" }).1.apiKeySelected
      = false := by
  have h1 := c2_credential_failure "xx Requested entity was not found yy" exStateSel
    exStateSel exImg
    { host := true, hostHasKey := true,
      animateResult := Except.error "xx Requested entity was not found yy" }
    (by decide) rfl
  have h2 := c2_credential_failure "boom" exStateSel exStateSel exImg
    { host := true, hostHasKey := true, animateResult := Except.error "boom" }
    (by decide) rfl
  exact ⟨by decide, (h1.1 (by decide)).1, by decide, (h2.2 (by decide)).1,
    (h1.1 (by decide)).2.2.1⟩

/-- C5: whenever a new Image Artifact is about to be produced — a second
generate request that passed validation, or a valid file upload — the Video
Resource Handle is cleared before the request is issued: the state snapshot
carried by the request event has videoUrl = none, for both a succeeding and a
failing request, and the handler's final state still has no Video Resource
Handle, so a handle never persists alongside an artifact other than the one
it was created from. -/
theorem c5_video_handle_cleared (s : AppState) (genRes : Except String String)
    (f : FileUpload) (readRes : Except String String)
    (hp : strTrim s.prompt ≠ "") (hf : strStartsWith f.ftype "image/" = true) :
    (∃ snap, (handleGenerateLogo s genRes).2 = [AppEvent.remoteGenerate snap] ∧
      snap.videoUrl = none ∧ snap.imageData = none) ∧
    (handleGenerateLogo s genRes).1.videoUrl = none ∧
    (∃ snap, (handleFileChange s (some f) readRes).2 = [AppEvent.fileRead snap] ∧
      snap.videoUrl = none) ∧
    (handleFileChange s (some f) readRes).1.videoUrl = none := by
  refine ⟨?_, ?_, ?_, ?_⟩
  · refine ⟨{ s with error := none, isGeneratingImage := true, videoUrl := none, imageData := none }, ?_, rfl, rfl⟩
    cases genRes <;> simp [handleGenerateLogo, hp]
  · cases genRes <;> simp [handleGenerateLogo, hp]
  · refine ⟨{ s with error := none, videoUrl := none }, ?_, rfl⟩
    cases readRes <;> simp [handleFileChange, hf]
  · cases readRes <;> simp [handleFileChange, hf]

theorem c5_witness :
    strTrim exStateSel.prompt ≠ "" ∧
    strStartsWith "image/jpeg" "image/" = true ∧
    (handleGenerateLogo exStateSel (Except.ok "NEW")).1.videoUrl = none ∧
    (handleFileChange exStateSel (some { ftype := "image/jpeg" })
      (Except.ok "NEW")).1.videoUrl = none := by
  have h := c5_video_handle_cleared exStateSel (Except.ok "NEW")
    { ftype := "image/jpeg" } (Except.ok "NEW") (by decide) (by decide)
  exact ⟨by decide, by decide, h.2.1, h.2.2.2⟩

/-- C3: with the credential present, generateLogo issues exactly one remote
call carrying the fixed template prompt (so it never retries), and always
settles to exactly one Image Artifact or to an error: it propagates a remote
throw, raises the generation-failure error when the image list is absent
(malformed response) or empty, and returns the single artifact otherwise. -/
theorem c3_generate_one_or_error (env : GenEnv) (p k : String)
    (hp : p ≠ "") (hk : env.envKey = some k) (hk0 : k ≠ "") :
    (generateLogo env p).1 = [GEvent.remoteGenImages k (logoPromptTemplate p)] ∧
    countRemoteGen (generateLogo env p).1 = 1 ∧
    ((∃ b, (generateLogo env p).2 = Except.ok b) ∨
      (∃ m, (generateLogo env p).2 = Except.error m)) ∧
    (∀ m, env.remote = Except.error m → (generateLogo env p).2 = Except.error m) ∧
    (∀ resp, env.remote = Except.ok resp → resp.generatedImages = none →
      (generateLogo env p).2 = Except.error genFailMsg) ∧
    (∀ resp, env.remote = Except.ok resp → resp.generatedImages = some [] →
      (generateLogo env p).2 = Except.error genFailMsg) ∧
    (∀ resp i rest, env.remote = Except.ok resp →
      resp.generatedImages = some (i :: rest) →
      (generateLogo env p).2 = Except.ok i.image.imageBytes) := by
  have hkey : getApiKey env.envKey = Except.ok k := by simp [getApiKey, hk, hk0]
  have htr : (generateLogo env p).1 = [GEvent.remoteGenImages k (logoPromptTemplate p)] := by
    rcases henv : env.remote with m | resp
    · simp [generateLogo, hkey, henv]
    · rcases hgi : resp.generatedImages with _ | (_ | ⟨i, rest⟩) <;>
        simp [generateLogo, hkey, henv, hgi]
  refine ⟨htr, ?_, ?_, ?_, ?_, ?_, ?_⟩
  · rw [htr]
    simp [countRemoteGen, List.countP_cons, isRemoteGenEv]
  · rcases henv : env.remote with m | resp
    · exact Or.inr ⟨m, by simp [generateLogo, hkey, henv]⟩
    · rcases hgi : resp.generatedImages with _ | (_ | ⟨i, rest⟩)
      · exact Or.inr ⟨genFailMsg, by simp [generateLogo, hkey, henv, hgi]⟩
      · exact Or.inr ⟨genFailMsg, by simp [generateLogo, hkey, henv, hgi]⟩
      · exact Or.inl ⟨i.image.imageBytes, by simp [generateLogo, hkey, henv, hgi]⟩
  · intro m hm
    simp [generateLogo, hkey, hm]
  · intro resp hr hgi
    simp [generateLogo, hkey, hr, hgi]
  · intro resp hr hgi
    simp [generateLogo, hkey, hr, hgi]
  · intro resp i rest hr hgi
    simp [generateLogo, hkey, hr, hgi]

theorem c3_witness :
    ("owl" : String) ≠ "" ∧ c3WitEnv.envKey = some "k2" ∧ ("k2" : String) ≠ "" ∧
    (generateLogo c3WitEnv "owl").2 = Except.ok "IMG" := by
  have h := c3_generate_one_or_error c3WitEnv "owl" "k2" (by decide) (by decide) (by decide)
  exact ⟨by decide, by decide, by decide,
    h.2.2.2.2.2.2 { generatedImages := some [{ image := { imageBytes := "IMG" } }] }
      { image := { imageBytes := "IMG" } } [] rfl rfl⟩

/-- C4: for a completed animation job, when the nested result uri is absent
the extract/download phase of animateLogo fails with the missing-result error
and attempts no download (empty trace); when the uri is present it fetches it
with the credential appended as a query parameter, fails with the download
error exactly when the response status is non-OK, and otherwise returns one
Video Resource Handle wrapping the downloaded bytes. -/
theorem c4_extract_download (dlKey : Option String) (f : String → FetchResp)
    (op : JobOp) (k : String)
    (hdone : op.done = true) (hk : dlKey = some k) (hk0 : k ≠ "") :
    (downloadLinkOf op = none →
      extractDownload dlKey f op = ([], Except.error missingResultMsg)) ∧
    (∀ link, downloadLinkOf op = some link →
      ((f (link ++ "&key=" ++ k)).ok = false →
        extractDownload dlKey f op =
          ([GEvent.fetch (link ++ "&key=" ++ k)],
           Except.error ("Failed to fetch video: " ++ (f (link ++ "&key=" ++ k)).statusText))) ∧
      ((f (link ++ "&key=" ++ k)).ok = true →
        extractDownload dlKey f op =
          ([GEvent.fetch (link ++ "&key=" ++ k)],
           Except.ok { bytes := (f (link ++ "&key=" ++ k)).bytes }))) := by
  have hkey : getApiKey dlKey = Except.ok k := by simp [getApiKey, hk, hk0]
  constructor
  · intro hnone
    simp [extractDownload, hnone]
  · intro link hlink
    constructor
    · intro ho
      simp [extractDownload, hlink, hkey, ho]
    · intro ho
      simp [extractDownload, hlink, hkey, ho]

theorem c4_witness :
    exDoneOp.done = true ∧ downloadLinkOf exDoneOp = some "http://v/x?a=1" ∧
    extractDownload (some "k1") exFetchOk exDoneOp =
      ([GEvent.fetch ("http://v/x?a=1" ++ "&key=" ++ "k1")],
       Except.ok { bytes := "VIDBYTES" }) := by
  have h := c4_extract_download (some "k1") exFetchOk exDoneOp "k1" (by decide) rfl (by decide)
  refine ⟨by decide, by decide, ?_⟩
  exact (h.2 "http://v/x?a=1" (by decide)).2 (by decide)

/-- C10: when the API_KEY variable is unset, generateLogo and animateLogo
both throw the missing-key error before issuing any remote request (their
traces are empty); and the key is re-read fresh at the start of each call and
again when the download url is built: the submit event carries the start-time
key while the fetch url carries the download-time key, even when they differ,
so a key changed between the two reads takes effect without restart. -/
theorem c10_key_absent_and_fresh :
    (∀ env p, env.envKey = none → generateLogo env p = ([], Except.error apiKeyMissingMsg)) ∧
    (∀ env : AnimateEnv, env.keyAtStart = none →
      animateLogo env = some ([], Except.error apiKeyMissingMsg)) ∧
    (∀ env : AnimateEnv, ∀ k1 k2 op0 link,
      env.keyAtStart = some k1 → k1 ≠ "" →
      env.keyAtDownload = some k2 → k2 ≠ "" →
      env.submitResult = Except.ok op0 → op0.done = true →
      downloadLinkOf op0 = some link →
      (env.fetchFn (link ++ "&key=" ++ k2)).ok = true →
      animateLogo env =
        some ([GEvent.submit k1, GEvent.fetch (link ++ "&key=" ++ k2)],
          Except.ok { bytes := (env.fetchFn (link ++ "&key=" ++ k2)).bytes })) := by
  refine ⟨?_, ?_, ?_⟩
  · intro env p h
    simp [generateLogo, getApiKey, h]
  · intro env h
    simp [animateLogo, getApiKey, h]
  · intro env k1 k2 op0 link h1 h1n h2 h2n hsub hdone hlink hok
    have hkey1 : getApiKey env.keyAtStart = Except.ok k1 := by simp [getApiKey, h1, h1n]
    have hkey2 : getApiKey env.keyAtDownload = Except.ok k2 := by simp [getApiKey, h2, h2n]
    have hpoll := pollEvents_done op0 env.queryOps hdone
    simp [animateLogo, hkey1, hsub, hpoll, extractDownload, hlink, hkey2, hok]

theorem c10_witness :
    c10WitEnv.keyAtStart = some "kOld" ∧ c10WitEnv.keyAtDownload = some "kNew" ∧
    generateLogo { envKey := none, remote := Except.error "never" } "p" =
      ([], Except.error apiKeyMissingMsg) ∧
    animateLogo { c10WitEnv with keyAtStart := none } =
      some ([], Except.error apiKeyMissingMsg) ∧
    animateLogo c10WitEnv =
      some ([GEvent.submit "kOld", GEvent.fetch ("http://v/x?a=1" ++ "&key=" ++ "kNew")],
        Except.ok { bytes := "VIDBYTES" }) := by
  have h := c10_key_absent_and_fresh
  refine ⟨rfl, rfl, ?_, ?_, ?_⟩
  · exact h.1 { envKey := none, remote := Except.error "never" } "p" rfl
  · exact h.2.1 { c10WitEnv with keyAtStart := none } rfl
  · exact h.2.2 c10WitEnv "kOld" "kNew" exDoneOp "http://v/x?a=1" rfl (by decide) rfl
      (by decide) rfl (by decide) (by decide) (by decide)

/-- C6: when video animation is requested with an Image Artifact present and
the host credential interface available, the handler queries the host and
then opens the interactive credential picker exactly when the selection state
captured at invocation is false; in that case the state snapshot at the
animate call already has the flag optimistically set to true, with no second
host query anywhere in the run, and in either case the run proceeds to the
animate call. -/
theorem c6_credential_check (s : AppState) (env : AnimateHandlerEnv) (img : ImageData)
    (himg : s.imageData = some img) (hhost : env.host = true) :
    (s.apiKeySelected = false →
      ∃ snap, (handleAnimateLogo s env).2 =
          [AppEvent.hostQuery, AppEvent.credentialPrompt, AppEvent.startTimer 4000,
           AppEvent.remoteAnimate snap, AppEvent.stopTimer] ∧
        snap.apiKeySelected = true) ∧
    (s.apiKeySelected = true →
      ∃ snap, (handleAnimateLogo s env).2 =
          [AppEvent.hostQuery, AppEvent.startTimer 4000,
           AppEvent.remoteAnimate snap, AppEvent.stopTimer]) := by
  constructor
  · intro hsel
    refine ⟨animateSnap s true, ?_, rfl⟩
    simp [handleAnimateLogo, himg, hhost, hsel, checkApiKey, handleSelectApiKey, animateSnap]
  · intro hsel
    refine ⟨animateSnap s env.hostHasKey, ?_⟩
    simp [handleAnimateLogo, himg, hhost, hsel, checkApiKey, handleSelectApiKey, animateSnap]

theorem c6_witness :
    exStateNoSel.imageData = some exImg ∧ exStateNoSel.apiKeySelected = false ∧
    (∃ snap, (handleAnimateLogo exStateNoSel
        { host := true, hostHasKey := false, animateResult := Except.ok "u" }).2 =
        [AppEvent.hostQuery, AppEvent.credentialPrompt, AppEvent.startTimer 4000,
         AppEvent.remoteAnimate snap, AppEvent.stopTimer] ∧
      snap.apiKeySelected = true) := by
  have h := c6_credential_check exStateNoSel
    { host := true, hostHasKey := false, animateResult := Except.ok "u" } exImg rfl rfl
  exact ⟨rfl, rfl, h.1 rfl⟩

/-- C8 (amended): once past validation, every run of the animate workflow —
for any outcome, success or failure — starts the 4000 ms rotation timer just
before the animate call with the first rotation message displayed, stops the
timer as the last step of the run (the finally block, which also runs on
failure) and ends with the displayed message cleared and the busy flag down;
the rotation cycles the fixed five-message list with period five purely as a
function of the tick count.  No teardown-registered cancellation exists; see
the counterexample. -/
theorem c8_rotation_timer (s : AppState) (env : AnimateHandlerEnv) (img : ImageData)
    (himg : s.imageData = some img) :
    (∃ pre snap, (handleAnimateLogo s env).2 =
        pre ++ [AppEvent.startTimer 4000, AppEvent.remoteAnimate snap, AppEvent.stopTimer] ∧
      snap.videoLoadingMessage = messageAfterTicks 0) ∧
    (handleAnimateLogo s env).1.videoLoadingMessage = "" ∧
    (handleAnimateLogo s env).1.isGeneratingVideo = false ∧
    (∀ k, messageAfterTicks (k + animMessages.length) = messageAfterTicks k) ∧
    animMessages.length = 5 := by
  refine ⟨?_, ?_, ?_, ?_, by decide⟩
  · by_cases hh : env.host <;> by_cases hsel : s.apiKeySelected = false
    · refine ⟨[AppEvent.hostQuery, AppEvent.credentialPrompt], animateSnap s true, ?_, rfl⟩
      simp [handleAnimateLogo, himg, hh, hsel, checkApiKey, handleSelectApiKey, animateSnap]
    · refine ⟨[AppEvent.hostQuery], animateSnap s env.hostHasKey, ?_, rfl⟩
      simp [handleAnimateLogo, himg, hh, hsel, checkApiKey, handleSelectApiKey, animateSnap]
    · refine ⟨[], animateSnap s s.apiKeySelected, ?_, rfl⟩
      simp [handleAnimateLogo, himg, hh, hsel, checkApiKey, handleSelectApiKey, animateSnap]
    · refine ⟨[], animateSnap s s.apiKeySelected, ?_, rfl⟩
      simp [handleAnimateLogo, himg, hh, hsel, checkApiKey, handleSelectApiKey, animateSnap]
  · simp [handleAnimateLogo, himg]
  · simp [handleAnimateLogo, himg]
  · intro k
    simp [messageAfterTicks, animMessages, Nat.add_mod_right]

theorem c8_witness :
    exStateSel.imageData = some exImg ∧
    (handleAnimateLogo exStateSel
      { host := true, hostHasKey := true,
        animateResult := Except.error "boom" }).1.videoLoadingMessage = "" := by
  have h := c8_rotation_timer exStateSel
    { host := true, hostHasKey := true, animateResult := Except.error "boom" } exImg rfl
  exact ⟨rfl, h.2.1⟩

/-- C8 counterexample to the claim as stated: the claim asserts the rotation
timer is also cancelled at component teardown, but the App component
registers no teardown cleanup action at all — its only effect hook returns no
cleanup function — so in particular no timer cancellation runs at teardown. -/
theorem c8_counterexample : ¬ (AppEvent.stopTimer ∈ appUnmountCleanup) := by
  decide

theorem countSubmits_nil : countSubmits [] = 0 := rfl

theorem countQueries_nil : countQueries [] = 0 := rfl

theorem countSubmits_cons (e : GEvent) (tr : List GEvent) :
    countSubmits (e :: tr) = countSubmits tr + if isSubmitEv e then 1 else 0 :=
  List.countP_cons isSubmitEv e tr

theorem countQueries_cons (e : GEvent) (tr : List GEvent) :
    countQueries (e :: tr) = countQueries tr + if isQueryEv e then 1 else 0 :=
  List.countP_cons isQueryEv e tr

theorem countSubmits_append (a b : List GEvent) :
    countSubmits (a ++ b) = countSubmits a + countSubmits b :=
  List.countP_append isSubmitEv a b

theorem countQueries_append (a b : List GEvent) :
    countQueries (a ++ b) = countQueries a + countQueries b :=
  List.countP_append isQueryEv a b

/-- C1 counterexample to the claim as stated: a run whose submit-returned Job
Handle is already complete.  The loop guard observes the completion flag
false zero times and then true (N = 0), and the run performs one submit and
zero status queries, not the 0 + 1 = 1 status queries the claim demands. -/
theorem c1_counterexample :
    observedFlags { done := true, response := none } c1CexEnv.queryOps =
      List.replicate 0 false ++ [true] ∧
    animateLogo c1CexEnv = some ([GEvent.submit "k1"], Except.error missingResultMsg) ∧
    countQueries [GEvent.submit "k1"] = 0 ∧ (0 : Nat) ≠ 0 + 1 := by
  refine ⟨rfl, rfl, rfl, by decide⟩

/-- C1 (amended): for every animateLogo run in which the loop guard observes
the Job Handle completion flag false N times and then true — the first
observation being of the submit-returned handle — the run performs exactly
one submit call and exactly N status queries (one per false observation); the
submit is the first event of the trace so no query precedes it, every query
is immediately preceded by its fixed 5000 ms suspension, everything after the
poll phase is at most the single download fetch, and the trace is one linear
sequence, so polls are strictly sequential. -/
theorem c1_poll_loop (env : AnimateEnv) (k : String) (op0 : JobOp) (N : Nat)
    (hk : env.keyAtStart = some k) (hk0 : k ≠ "")
    (hsub : env.submitResult = Except.ok op0)
    (hobs : observedFlags op0 env.queryOps = List.replicate N false ++ [true]) :
    ∃ tr tail res,
      animateLogo env = some (tr, res) ∧
      tr = GEvent.submit k ::
        ((List.replicate N [GEvent.sleep 5000, GEvent.query]).flatten ++ tail) ∧
      (tail = [] ∨ ∃ url, tail = [GEvent.fetch url]) ∧
      countSubmits tr = 1 ∧ countQueries tr = N := by
  obtain ⟨fin, hpoll, hdone⟩ := pollEvents_of_observedFlags env.queryOps op0 N hobs
  have hkey : getApiKey env.keyAtStart = Except.ok k := by simp [getApiKey, hk, hk0]
  refine ⟨_, (extractDownload env.keyAtDownload env.fetchFn fin).1,
    (extractDownload env.keyAtDownload env.fetchFn fin).2, ?_, rfl, ?_, ?_, ?_⟩
  · simp [animateLogo, hkey, hsub, hpoll]
  · exact extractDownload_trace_shape env.keyAtDownload env.fetchFn fin
  · rcases extractDownload_trace_shape env.keyAtDownload env.fetchFn fin with ht | ⟨url, ht⟩ <;>
      simp [ht, countSubmits_cons, countSubmits_append, countSubmits_nil,
        countSubmits_flatten_replicate, isSubmitEv]
  · rcases extractDownload_trace_shape env.keyAtDownload env.fetchFn fin with ht | ⟨url, ht⟩ <;>
      simp [ht, countQueries_cons, countQueries_append, countQueries_nil,
        countQueries_flatten_replicate, isQueryEv]

theorem c1_witness :
    c1WitEnv.keyAtStart = some "k1" ∧ ("k1" : String) ≠ "" ∧
    c1WitEnv.submitResult = Except.ok exPendingOp ∧
    observedFlags exPendingOp c1WitEnv.queryOps = List.replicate 1 false ++ [true] ∧
    (∃ tr tail res,
      animateLogo c1WitEnv = some (tr, res) ∧
      tr = GEvent.submit "k1" ::
        ((List.replicate 1 [GEvent.sleep 5000, GEvent.query]).flatten ++ tail) ∧
      (tail = [] ∨ ∃ url, tail = [GEvent.fetch url]) ∧
      countSubmits tr = 1 ∧ countQueries tr = 1) := by
  refine ⟨rfl, by decide, rfl, by decide, ?_⟩
  exact c1_poll_loop c1WitEnv "k1" exPendingOp 1 rfl (by decide) rfl (by decide)
